import Mathlib

/-
Verification development for the dutctl run orchestrator.

Shallow embedding of the core of the repository:
  * `src/src/dutctl/aginstr.py` — instrument power sequencing (power supplies and
    signal generators), modelled as pure functions that either fail with a Python
    exception (assert / KeyError / StopIteration) or return the ordered list of
    instrument operations they perform.
  * `src/host/lib/dut.py` — subprocess supervision, serial-line reading, and the
    embedded control-line protocol processor, modelled over explicit event traces.
  * `src/src/dutctl/dutctl.py` — the orchestrator's synchronous instrument paths,
    modelled as compositions of the above at the exact call sites (including the
    exact positional arguments the source passes).

Numeric conventions: Python floats are modelled as rationals (ℚ); the protocol
values appearing here are small decimals, for which ordering and equality agree
with float semantics.  Python dicts are modelled as insertion-ordered association
lists.  A pyvisa instrument handle is identified by the name under which it is
stored, since `connect_instrs` builds the instrument dict keyed by config name.
-/

namespace Dutctl

/-! ## Association lists (Python dicts, insertion ordered) -/

def alookup {α β : Type} [DecidableEq α] (k : α) : List (α × β) → Option β
  | [] => none
  | (k', v) :: rest => if k' = k then some v else alookup k rest

/-- Replace the value stored at an existing key, keeping insertion order
(Python `d[k] = v` for a key already present; all uses in the model have the
key present). -/
def aupdate {α β : Type} [DecidableEq α] (k : α) (v : β) : List (α × β) → List (α × β)
  | [] => []
  | (k', v') :: rest => if k' = k then (k, v) :: rest else (k', v') :: aupdate k v rest

/-! ## Python exceptions and literal values -/

/-- The Python exceptions the modelled code can raise. -/
inductive PyExn
  | assertionError
  | keyError
  | stopIteration
  | syntaxError
deriving DecidableEq

/-- Python values produced by `ast.literal_eval`.  Container literals are kept
opaque (by their textual representation): the claims only distinguish value
kinds, and `literal_eval` itself is external library code abstracted by an
oracle below. -/
inductive PyVal
  | int (n : Int)
  | float (q : ℚ)
  | bool (b : Bool)
  | str (s : String)
  | listRepr (s : String)
  | dictRepr (s : String)
  | noneV
deriving DecidableEq

/-- Outcome of `ast.literal_eval` on a payload string.  `literal_eval` is Python
standard-library code (not part of this repository), so it is abstracted as an
oracle classifying each payload: a literal value, a ValueError (syntactically a
Python expression but not a literal, e.g. `abc`), or a SyntaxError (not
parseable at all, e.g. `abc def`). -/
inductive LitEvalResult
  | ok (v : PyVal)
  | valueError
  | syntaxError
deriving DecidableEq

abbrev LitEval := String → LitEvalResult

/-- `dut.literal_or_str` (dut.py lines 25-29).  The source comment reads
"Parse to specific literal (e.g. hex, int, float, list, ...) if possible,
otherwise return input", but the `try` block catches only `ValueError`: a
payload on which `literal_eval` raises `SyntaxError` propagates the exception. -/
def literal_or_str (le : LitEval) (expr : String) : Except PyExn PyVal :=
  match le expr with
  | .ok v => .ok v
  | .valueError => .ok (.str expr)
  | .syntaxError => .error .syntaxError

/-! ## Character-level helpers (regexes and number parsing)

`parse_psuline` and the dutmeas handler use `re.match` with fixed patterns in
which every group is a character class (`[^:]+`, `\d+`, `[^:\r\n]+`,
`[^\r\n]+`); greedy matching of such patterns is deterministic, so they are
modelled by explicit prefix/`takeWhile` parsing over `List Char`. -/

def isDigitChar (c : Char) : Bool := c.isDigit

/-- Value of a nonempty digit string, as Python `int()`. -/
def digitsToNat (cs : List Char) : Nat :=
  cs.foldl (fun a c => 10 * a + (c.toNat - 48)) 0

/-- Match `prefixChars` at the start of `s`, returning the rest. -/
def stripPrefixChars : List Char → List Char → Option (List Char)
  | [], s => some s
  | _ :: _, [] => none
  | p :: ps, c :: cs => if c = p then stripPrefixChars ps cs else none

/-- Python `float()` on the decimal forms the protocol produces:
`[sign] digits [. digits]` or `[sign] . digits`.  (Python `float` additionally
accepts inf/nan/exponent forms and surrounding whitespace; protocol fields
never carry those, and they are not modelled.)  Returns `none` where `float()`
raises `ValueError`, mirroring `dut.try_float` (dut.py lines 33-37). -/
def pyFloatCore (t : List Char) : Option ℚ :=
  let ip := t.takeWhile isDigitChar
  let r1 := t.dropWhile isDigitChar
  match r1 with
  | [] => match ip with
    | [] => none
    | _ :: _ => some (mkRat (digitsToNat ip) 1)
  | '.' :: fr =>
    let fp := fr.takeWhile isDigitChar
    let r2 := fr.dropWhile isDigitChar
    match r2 with
    | [] =>
      if ip.isEmpty && fp.isEmpty then none
      else some (mkRat (digitsToNat ip * 10 ^ fp.length + digitsToNat fp) (10 ^ fp.length))
    | _ :: _ => none
  | _ :: _ => none

def pyFloat? : List Char → Option ℚ
  | '+' :: t => pyFloatCore t
  | '-' :: t => (pyFloatCore t).map (fun q => -q)
  | t => pyFloatCore t

/-- Python `str.rstrip()` default whitespace set. -/
def isPySpace (c : Char) : Bool :=
  c == ' ' || c == '\t' || c == '\n' || c == '\r' || c == '\x0b' || c == '\x0c'

def rstrip (l : List Char) : List Char :=
  (l.reverse.dropWhile isPySpace).reverse

/-! ## Instrument configuration data model (aginstr.py) -/

/-- `aginstr.PsuChannel`.  `volmax` defaults to `1.1 * vol` in `__post_init__`;
constructions in this file pass it explicitly. -/
structure PsuChannel where
  vol : ℚ
  cur : ℚ
  volmin : ℚ := 0
  volmax : ℚ
  active : Bool := true
  fourwire : Bool := false
  measure : Bool := false
  measure_vol : Bool := false
deriving DecidableEq

/-- `aginstr.PsuConfig`.  `channels` is an insertion-ordered dict keyed by the
channel index. -/
structure PsuConfig where
  ip : String
  channels : List (Nat × PsuChannel) := []
  reset_gpio : Nat := 0
  opmode : String := "OFF"
deriving DecidableEq

/-- `aginstr.SiggenSource`. -/
structure SiggenSource where
  freq : ℚ
  vhi : ℚ
  vlo : ℚ := 0
  shape : String := "SQU"
  leakoff : Bool := true
  duty : ℚ := 50
  active : Bool := true
deriving DecidableEq

/-- `aginstr.SiggenConfig`. -/
structure SiggenConfig where
  ip : String
  sources : List (Nat × SiggenSource) := []
deriving DecidableEq

abbrev PsuConfigs := List (String × PsuConfig)
abbrev SiggenConfigs := List (String × SiggenConfig)

/-! ## Instrument operations as event traces -/

/-- One instrument-facing operation performed by an aginstr procedure.  Each
constructor corresponds to one helper in aginstr.py (one logical SCPI
interaction; helpers issuing several `write` calls for one action are one
event). -/
inductive AgEvent
  | resetInstr (instr : String)
  | setPchVolCur (instr : String) (vol cur : ℚ) (channel : Nat)
  | setPchFourwire (instr : String) (fourwire : Bool) (channel : Nat)
  | setPchActive (instr : String) (active : Bool) (channel : Nat)
  | setPsuOpmode (instr : String) (opmode : String)
  | setPsuGpio (instr : String) (pin : Nat) (val : Bool)
  | measPch (instr : String) (isVolt : Bool) (channel : Nat) (val : ℚ)
  | setSigsrcFreq (instr : String) (freq : ℚ) (source : Nat)
  | setSigsrcLevels (instr : String) (vhi vlo : ℚ) (source : Nat)
  | setSigsrcShape (instr : String) (shape : String) (duty : ℚ) (source : Nat)
  | setSigsrcActive (instr : String) (active : Bool) (source : Nat)
  | sleepFor (secs : ℚ)
deriving DecidableEq

/-- Result of an aginstr procedure: the trace of instrument operations it
performed, or the Python exception that aborted it. -/
abbrev AgM := Except PyExn (List AgEvent)

/-- Sequence two aginstr computations: Python executes statements in order and
aborts at the first uncaught exception. -/
def agSeq (a b : AgM) : AgM :=
  match a with
  | .error e => .error e
  | .ok t1 =>
    match b with
    | .error e => .error e
    | .ok t2 => .ok (t1 ++ t2)

/-- A Python `for` loop whose body is an aginstr computation. -/
def agFold {α : Type} (f : α → AgM) (l : List α) : AgM :=
  l.foldl (fun acc x => agSeq acc (f x)) (.ok [])

/-- Dict access `instrs[name]` on the instrument dict (KeyError when absent).
The instrument handle is identified by its name. -/
def getInstr (instrs : List String) (name : String) : Except PyExn String :=
  if name ∈ instrs then .ok name else .error .keyError

/-- Channel defaulting used by the per-channel helpers:
`channel = 1 if channel == 0 else channel`. -/
def effCh (channel : Nat) : Nat := if channel = 0 then 1 else channel

/-- `aginstr.reset_instr`. -/
def reset_instr (instr : String) : AgM := .ok [.resetInstr instr]

/-- `aginstr.set_pch_vol_cur` (lines 80-88): `assert volmin <= vol <= volmax`,
then apply the voltage/current and sleep 0.05 s. -/
def set_pch_vol_cur (instr : String) (vol cur volmin volmax : ℚ) (channel : Nat) : AgM :=
  if volmin ≤ vol ∧ vol ≤ volmax then
    .ok [.setPchVolCur instr vol cur channel, .sleepFor (mkRat 1 20)]
  else .error .assertionError

/-- `aginstr.set_pch_fourwire`. -/
def set_pch_fourwire (instr : String) (fourwire : Bool) (channel : Nat) : AgM :=
  .ok [.setPchFourwire instr fourwire (effCh channel)]

/-- `aginstr.set_pch_active`. -/
def set_pch_active (instr : String) (active : Bool) (channel : Nat) : AgM :=
  .ok [.setPchActive instr active (effCh channel)]

/-- Oracle for instrument read-backs: `meas_pch_vol_or_cur`'s query result for
(instrument, volt?, effective channel). -/
abbrev MeasOracle := String → Bool → Nat → ℚ

/-- `aginstr.meas_pch_vol_or_cur` (the `tpe` assert is satisfied at every call
site, which passes the literals `'CURR'` or `'VOLT'`; `tpe` is modelled as a
Boolean `isVolt`). -/
def meas_pch_vol_or_cur (mo : MeasOracle) (instr : String) (isVolt : Bool) (channel : Nat) :
    ℚ × List AgEvent :=
  (mo instr isVolt (effCh channel), [.measPch instr isVolt (effCh channel) (mo instr isVolt (effCh channel))])

/-- `aginstr.set_psu_opmode`: `assert opmode in ('OFF', 'PAR', 'SER')`. -/
def set_psu_opmode (instr : String) (opmode : String) : AgM :=
  if opmode = "OFF" ∨ opmode = "PAR" ∨ opmode = "SER" then .ok [.setPsuOpmode instr opmode]
  else .error .assertionError

/-- `aginstr.set_psu_gpio_state`: `assert pin > 0`. -/
def set_psu_gpio_state (instr : String) (pin : Nat) (val : Bool) : AgM :=
  if 0 < pin then .ok [.setPsuGpio instr pin val] else .error .assertionError

/-- `aginstr.set_psu_channel_configs` (lines 123-128): for every channel in
order, apply voltage/current and sense mode, and toggle the output state only
when `toggle_output_state` is set. -/
def set_psu_channel_configs (instr : String) (channel_configs : List (Nat × PsuChannel))
    (toggle_output_state : Bool) : AgM :=
  agFold (fun pc =>
    agSeq (set_pch_vol_cur instr pc.2.vol pc.2.cur pc.2.volmin pc.2.volmax pc.1)
      (agSeq (set_pch_fourwire instr pc.2.fourwire pc.1)
        (if toggle_output_state then set_pch_active instr pc.2.active pc.1 else .ok [])))
    channel_configs

/-- Body shared by the three GPIO loops of `aginstr.reset`. -/
def gpioCall (instrs : List String) (name : String) (pin : Nat) (val : Bool) : AgM :=
  match getInstr instrs name with
  | .error e => .error e
  | .ok i => set_psu_gpio_state i pin val

/-- `aginstr.reset` (lines 216-226): unless `initial_low`, raise every
configured reset GPIO; drop them low; hold `t_rst`; raise them again.
`if cfg.reset_gpio:` is Python int truthiness, i.e. `reset_gpio ≠ 0`. -/
def reset (instrs : List String) (psu_configs : PsuConfigs) (initial_low : Bool)
    (t_rst : ℚ) : AgM :=
  agSeq (agFold (fun nc =>
      if initial_low = false ∧ nc.2.reset_gpio ≠ 0 then gpioCall instrs nc.1 nc.2.reset_gpio true
      else .ok []) psu_configs)
    (agSeq (agFold (fun nc =>
        if nc.2.reset_gpio ≠ 0 then gpioCall instrs nc.1 nc.2.reset_gpio false
        else .ok []) psu_configs)
      (agSeq (.ok [.sleepFor t_rst])
        (agFold (fun nc =>
          if nc.2.reset_gpio ≠ 0 then gpioCall instrs nc.1 nc.2.reset_gpio true
          else .ok []) psu_configs)))

/-- `aginstr.power_off` (lines 230-236): ganged supplies switch off only the
first instrument (`next(iter(instrs.values()))`, StopIteration when there is
none); otherwise every supply's output is disabled. -/
def power_off (instrs : List String) (psu_configs : PsuConfigs) (ganged : Bool) : AgM :=
  if ganged then
    match instrs with
    | [] => .error .stopIteration
    | i :: _ => set_pch_active i false 0
  else
    agFold (fun nc =>
      match getInstr instrs nc.1 with
      | .error e => .error e
      | .ok i => set_pch_active i false 0) psu_configs

/-- Per-supply body of `aginstr.power_reset_cycle`.  `None not in cfg.channels`
is always true here since channel keys are the integers loaded from the
config, so `set_psu_opmode` is always invoked. -/
def powerCycleSupply (instrs : List String) (ganged rst_instr : Bool)
    (nc : String × PsuConfig) : AgM :=
  match getInstr instrs nc.1 with
  | .error e => .error e
  | .ok i =>
    agSeq (if rst_instr then reset_instr i else .ok [])
      (agSeq (set_psu_opmode i nc.2.opmode)
        (set_psu_channel_configs i nc.2.channels (!ganged)))

/-- `aginstr.power_reset_cycle` (lines 240-257): power off, re-apply every
supply's configuration (output toggling suppressed when ganged), enable the
single shared output when ganged, then pulse the reset GPIOs with
initial-low semantics. -/
def power_reset_cycle (instrs : List String) (psu_configs : PsuConfigs) (ganged : Bool)
    (t_rst : ℚ) (rst_instr : Bool) : AgM :=
  agSeq (power_off instrs psu_configs ganged)
    (agSeq (agFold (powerCycleSupply instrs ganged rst_instr) psu_configs)
      (agSeq (if ganged then
          match instrs with
          | [] => .error .stopIteration
          | i :: _ => set_pch_active i true 0
        else .ok [])
        (reset instrs psu_configs true t_rst)))

/-- Per-supply/channel measurement record: measured current, and voltage when
the channel requests voltage readback. -/
abbrev MeasDict := List (String × List (Nat × (ℚ × Option ℚ)))

/-- Per-channel body of the `aginstr.meas_vol_cur` loops. -/
def measChannelStep (mo : MeasOracle) (instrs : List String) (pname : String)
    (measure_all : Bool)
    (acc2 : Except PyExn (List (Nat × (ℚ × Option ℚ)) × List AgEvent))
    (cc : Nat × PsuChannel) : Except PyExn (List (Nat × (ℚ × Option ℚ)) × List AgEvent) :=
  match acc2 with
  | .error e => .error e
  | .ok (entries, evs2) =>
    if cc.2.measure = false ∧ measure_all = false then .ok (entries, evs2)
    else
      match getInstr instrs pname with
      | .error e => .error e
      | .ok i =>
        let rcur := meas_pch_vol_or_cur mo i false cc.1
        if cc.2.measure_vol then
          let rvol := meas_pch_vol_or_cur mo i true cc.1
          .ok (entries ++ [(cc.1, (rcur.1, some rvol.1))], evs2 ++ rcur.2 ++ rvol.2)
        else .ok (entries ++ [(cc.1, (rcur.1, none))], evs2 ++ rcur.2)

def measSupplyStep (mo : MeasOracle) (instrs : List String) (measure_all : Bool)
    (acc : Except PyExn (MeasDict × List AgEvent)) (pp : String × PsuConfig) :
    Except PyExn (MeasDict × List AgEvent) :=
  match acc with
  | .error e => .error e
  | .ok (ret, evs) =>
    match pp.2.channels.foldl (measChannelStep mo instrs pp.1 measure_all) (.ok ([], [])) with
    | .error e => .error e
    | .ok (entries, evs2) =>
      if entries.isEmpty then .ok (ret, evs ++ evs2)
      else .ok (ret ++ [(pp.1, entries)], evs ++ evs2)

/-- `aginstr.meas_vol_cur` (lines 261-275): for each channel flagged `measure`
(or all when `measure_all`), read current, and voltage when `measure_vol`;
a supply appears in the result only if one of its channels was measured. -/
def meas_vol_cur (mo : MeasOracle) (instrs : List String) (psu_configs : PsuConfigs)
    (measure_all : Bool) : Except PyExn (MeasDict × List AgEvent) :=
  psu_configs.foldl (measSupplyStep mo instrs measure_all) (.ok ([], []))

/-- `aginstr.set_sigsrc_freq`: `assert source > 0`. -/
def set_sigsrc_freq (instr : String) (freq : ℚ) (source : Nat) : AgM :=
  if 0 < source then .ok [.setSigsrcFreq instr freq source] else .error .assertionError

/-- `aginstr.set_sigsrc_levels`: `assert source > 0`. -/
def set_sigsrc_levels (instr : String) (vhi vlo : ℚ) (source : Nat) : AgM :=
  if 0 < source then .ok [.setSigsrcLevels instr vhi vlo source] else .error .assertionError

/-- `aginstr.set_sigsrc_shape`: asserts the shape is known and `0 < duty < 100`. -/
def set_sigsrc_shape (instr : String) (shape : String) (duty : ℚ) (source : Nat) : AgM :=
  if (shape = "SQU" ∨ shape = "SIN" ∨ shape = "TRI" ∨ shape = "RAMP" ∨ shape = "NRAN")
      ∧ 0 < duty ∧ duty < 100 then
    .ok [.setSigsrcShape instr shape duty source]
  else .error .assertionError

/-- `aginstr.set_sigsrc_active`: `assert source > 0`. -/
def set_sigsrc_active (instr : String) (active : Bool) (source : Nat) : AgM :=
  if 0 < source then .ok [.setSigsrcActive instr active source] else .error .assertionError

/-- `aginstr.set_siggen_source_configs`. -/
def set_siggen_source_configs (instr : String) (source_configs : List (Nat × SiggenSource))
    (toggle_output_state : Bool) : AgM :=
  agFold (fun sc =>
    agSeq (set_sigsrc_freq instr sc.2.freq sc.1)
      (agSeq (set_sigsrc_levels instr sc.2.vhi sc.2.vlo sc.1)
        (agSeq (set_sigsrc_shape instr sc.2.shape sc.2.duty sc.1)
          (if toggle_output_state then set_sigsrc_active instr sc.2.active sc.1 else .ok []))))
    source_configs

/-- `aginstr.siggens_off` (lines 279-282): disable every source of every
generator. -/
def siggens_off (instrs : List String) (siggen_configs : SiggenConfigs) : AgM :=
  agFold (fun gc =>
    agFold (fun sc =>
      match getInstr instrs gc.1 with
      | .error e => .error e
      | .ok i => set_sigsrc_active i false sc.1) gc.2.sources)
    siggen_configs

/-- `aginstr.siggens_leak_off` (lines 286-291): disable only the sources
flagged `leakoff`. -/
def siggens_leak_off (instrs : List String) (siggen_configs : SiggenConfigs) : AgM :=
  agFold (fun gc =>
    agFold (fun sc =>
      if sc.2.leakoff then
        match getInstr instrs gc.1 with
        | .error e => .error e
        | .ok i => set_sigsrc_active i false sc.1
      else .ok []) gc.2.sources)
    siggen_configs

/-- `aginstr.reconf_siggens` (lines 295-304). -/
def reconf_siggens (instrs : List String) (siggen_configs : SiggenConfigs)
    (stop_instr rst_instr : Bool) : AgM :=
  agSeq (if stop_instr then siggens_off instrs siggen_configs else .ok [])
    (agFold (fun gc =>
      match getInstr instrs gc.1 with
      | .error e => .error e
      | .ok i =>
        agSeq (if rst_instr then reset_instr i else .ok [])
          (set_siggen_source_configs i gc.2.sources true)) siggen_configs)

/-! ## Subprocess supervision and the serial reader (dut.py)

Concurrency is modelled per task: a task's run is the ordered list of its
observable actions (an event trace).  The shared Termination Signal
(`end_event : asyncio.Event`) is modelled from one task's viewpoint as the
function `extEvent : Nat → Bool`, giving the value `end_event.is_set()` returns
at the task's i-th suspension point; the task's own `end_event.set()` calls
appear in its trace as `evSet` events. -/

/-- Observable actions of the dut.py coroutines. -/
inductive TaskEv
  | spawn (argv : List String)
  | evSet
  | sendSignal (sig : Option Int)
  | pollSleep (secs : ℚ)
  | queuePush (line : List Char)
  | logWrite (line : List Char)
deriving DecidableEq

def isEvSet : TaskEv → Bool
  | .evSet => true
  | _ => false

/-- Number of `end_event.set()` calls in a trace. -/
def countEvSet (tr : List TaskEv) : Nat := (tr.filter isEvSet).length

structure SubprocRes where
  trace : List TaskEv
  ret : Int
deriving DecidableEq

/-- The `while p.returncode is None` loop of `dut.async_subproc` (lines 52-61).
`selfExitLeft` is the number of poll iterations after which the process's own
exit code becomes observable; `ownCode` is that code, and `stopCode` the exit
code the process produces when sent the stop signal.  Returns the loop's trace,
the final `p.returncode`, and the value of `end_event.is_set()` when the loop
exits. -/
def subprocLoop (extEvent : Nat → Bool) (sig : Option Int) (ownCode stopCode : Int)
    (poll_period : ℚ) : Nat → Nat → List TaskEv × Int × Bool
  | i, 0 => ([], ownCode, extEvent i)
  | i, selfExitLeft + 1 =>
    if extEvent i then ([.sendSignal sig], stopCode, true)
    else
      let r := subprocLoop extEvent sig ownCode stopCode poll_period (i + 1) selfExitLeft
      (.pollSleep poll_period :: r.1, r.2.1, r.2.2)

/-- `dut.async_subproc` (lines 46-69): assert the poll period is positive,
spawn the process, poll until it exits (sending the configured stop signal —
`p.terminate()` when `sig is None` — once the Termination Signal is set), set
the Termination Signal if this process ended unprompted, and mask the exit
code if configured. -/
def async_subproc (extEvent : Nat → Bool) (argv : List String) (selfExitAfter : Nat)
    (ownCode stopCode : Int) (poll_period : ℚ) (sig : Option Int) (mask_return : Option Int) :
    Except PyExn SubprocRes :=
  if 0 < poll_period then
    let r := subprocLoop extEvent sig ownCode stopCode poll_period 0 selfExitAfter
    .ok { trace := .spawn argv :: r.1 ++ (if r.2.2 then [] else [.evSet])
          ret := if mask_return = some r.2.1 then 0 else r.2.1 }
  else .error .assertionError

/-- `dut.handle_gdb` (lines 224-227): runs GDB via `async_subproc` with
`sig=signal.SIGKILL` (9) and no `mask_return`. -/
def handle_gdb (extEvent : Nat → Bool) (binary script_path : String) (selfExitAfter : Nat)
    (ownCode stopCode : Int) (poll_period : ℚ) : Except PyExn SubprocRes :=
  async_subproc extEvent [binary, "-x", script_path] selfExitAfter ownCode stopCode
    poll_period (some 9) none

/-- `dut.handle_ocd` (lines 234-237): runs OpenOCD via `async_subproc` with the
default stop signal (`sig=None`, i.e. `p.terminate()`) and `mask_return=-15`. -/
def handle_ocd (extEvent : Nat → Bool) (binary script_path : String) (selfExitAfter : Nat)
    (ownCode stopCode : Int) (poll_period : ℚ) : Except PyExn SubprocRes :=
  async_subproc extEvent [binary, "-f", script_path] selfExitAfter ownCode stopCode
    poll_period none (some (-15))

structure SerialRes where
  trace : List TaskEv
  raised : Bool
deriving DecidableEq

/-- `dut.uart_handle_serial` (lines 186-197): read line by line; lines starting
with `@<tname>` are pushed (rstripped) onto the line queue before the raw line
is written to the log.  `input` is the list of lines delivered before the
serial link closes or fails, at which point the pending `readline` raises and
the exception propagates out of the coroutine (`raised`).  The function takes
no reference to the Termination Signal (its signature has no `end_event`
parameter) and performs no `set()` call, so its trace never contains `evSet`. -/
def uartHandleSerial (tname : String) (input : List (List Char)) : SerialRes :=
  { trace := input.flatMap (fun l =>
      (if (stripPrefixChars ('@' :: tname.data) l).isSome then [TaskEv.queuePush (rstrip l)]
       else []) ++ [TaskEv.logWrite l])
    raised := true }

/-! ## The control-line protocol (dut.py regexes) -/

/-- Captured groups of the `parse_psuline` regex
`@<tname>:psu<name>:([^:]+):(\d+)(?::([^:\r\n]+))?(?::(\d+))?`. -/
structure PsuGroups where
  g1 : List Char
  g2 : List Char
  g3 : Option (List Char)
  g4 : Option (List Char)
deriving DecidableEq

def psuPrefix (tname name : String) : List Char :=
  ("@" ++ tname ++ ":psu" ++ name ++ ":").data

/-- An optional regex group `(?::(cls+))?`: consumed only when a `:` followed
by a nonempty run of `cls` characters is present (greedy matching of the
character-class groups is deterministic; `re.match` does not anchor the end,
so unmatched trailing input is ignored). -/
def optGroup (cls : Char → Bool) (r : List Char) : Option (List Char) × List Char :=
  match r with
  | ':' :: r2 =>
    match r2.takeWhile cls with
    | [] => (none, r)
    | c :: cs => (some (c :: cs), r2.dropWhile cls)
  | _ => (none, r)

def psuG3Class (c : Char) : Bool := c != ':' && c != '\r' && c != '\n'

/-- The `re.match` of `dut.parse_psuline` (lines 94-95). -/
def psuMatch (tname name : String) (line : List Char) : Option PsuGroups :=
  match stripPrefixChars (psuPrefix tname name) line with
  | none => none
  | some r0 =>
    match r0.takeWhile (· != ':') with
    | [] => none
    | c1 :: cs1 =>
      match r0.dropWhile (· != ':') with
      | ':' :: r2 =>
        match r2.takeWhile isDigitChar with
        | [] => none
        | c2 :: cs2 =>
          let r3 := r2.dropWhile isDigitChar
          let p3 := optGroup psuG3Class r3
          let p4 := optGroup isDigitChar p3.2
          some ⟨c1 :: cs1, c2 :: cs2, p3.1, p4.1⟩
      | _ => none

/-- The `re.match` of the dutmeas branch (line 147):
`@<tname>:dutmeas:([^:]+):([^\r\n]+)`.  The value group may itself contain
colons. -/
def dutmeasMatch (tname : String) (line : List Char) : Option (List Char × List Char) :=
  match stripPrefixChars (("@" ++ tname ++ ":dutmeas:").data) line with
  | none => none
  | some r0 =>
    match r0.takeWhile (· != ':') with
    | [] => none
    | c1 :: cs1 =>
      match r0.dropWhile (· != ':') with
      | ':' :: r2 =>
        match r2.takeWhile (fun c => c != '\r' && c != '\n') with
        | [] => none
        | c2 :: cs2 => some (c1 :: cs1, c2 :: cs2)
      | _ => none

/-! ## The control-line processor (dut.py) -/

/-- Observable actions of `uart_handle_control_lines` and `parse_psuline`:
error logging, queue acknowledgement, measurement-record writes, the
protocol-mandated sleeps, and the instrument operations performed on its
behalf.  (Purely informational prints — `PSUCFG:`/`MEAS:` console echo — are
not modelled.) -/
inductive CtlEvent
  | errMalformedPsu (name : String) (line : List Char)
  | errUnknownSupply (supply : String) (name : String) (line : List Char)
  | errUnknownChannel (cidx : Nat) (name : String) (line : List Char)
  | errMalformedDutmeas (line : List Char)
  | errMalformedLine (line : List Char)
  | errDropped (line : List Char)
  | taskDone
  | dutMeasWrite (key : String) (val : PyVal)
  | psuMeasWrite (key : Option String) (dat : MeasDict)
  | sleepMs (ms : ℚ)
  | ag (e : AgEvent)
deriving DecidableEq

/-- Result of `dut.parse_psuline` together with its side effects: `loc` is the
returned `psu_configs_loc` scope, `cfgs` the (possibly mutated!) global
`psu_configs` — the channel narrowing on line 117 assigns through the shared
`PsuConfig` object, so it is visible in the global configuration. -/
structure PsuParse where
  valid : Bool
  groups : Option PsuGroups
  loc : PsuConfigs
  cfgs : PsuConfigs
  events : List CtlEvent
deriving DecidableEq

/-- `dut.parse_psuline` (lines 92-130).  `name` is `"ctl"` or `"meas"`.
Malformed lines (no regex match, or a psuctl voltage `try_float` rejects) and
unknown supplies/channels are logged, acknowledged (`task_done`) and reported
invalid; valid lines sleep `delay_ms` (the `sleepMs` event records the
millisecond value) after scope resolution. -/
def parse_psuline (name tname : String) (cfgs : PsuConfigs) (line : List Char) : PsuParse :=
  match psuMatch tname name line with
  | none => ⟨false, none, cfgs, cfgs, [.errMalformedPsu name line, .taskDone]⟩
  | some gs =>
    if name = "ctl" ∧ (pyFloat? gs.g1).isNone then
      ⟨false, none, cfgs, cfgs, [.errMalformedPsu name line, .taskDone]⟩
    else
      match gs.g3 with
      | none => ⟨true, some gs, cfgs, cfgs, [.sleepMs (digitsToNat gs.g2 : ℚ)]⟩
      | some supC =>
        let supply := String.mk supC
        match alookup supply cfgs with
        | none => ⟨false, none, cfgs, cfgs, [.errUnknownSupply supply name line, .taskDone]⟩
        | some pcfg =>
          match gs.g4 with
          | none =>
            ⟨true, some gs, [(supply, pcfg)], cfgs, [.sleepMs (digitsToNat gs.g2 : ℚ)]⟩
          | some cixC =>
            let cidx := digitsToNat cixC
            match alookup cidx pcfg.channels with
            | none =>
              ⟨false, none, cfgs, cfgs, [.errUnknownChannel cidx name line, .taskDone]⟩
            | some ch =>
              let ch2 := if name = "ctl" then { ch with vol := (pyFloat? gs.g1).getD ch.vol }
                         else ch
              let pcfg2 := { pcfg with channels := [(cidx, ch2)] }
              ⟨true, some gs, [(supply, pcfg2)], aupdate supply pcfg2 cfgs,
                [.sleepMs (digitsToNat gs.g2 : ℚ)]⟩

/-- `dut.async_meas` (lines 85-89): run `meas_vol_cur` (off the event loop) and
write the result keyed by `name`. -/
def async_meas (mo : MeasOracle) (instrs : List String) (cfgs : PsuConfigs)
    (name : Option String) : Except PyExn (List CtlEvent) :=
  match meas_vol_cur mo instrs cfgs false with
  | .error e => .error e
  | .ok r => .ok (r.2.map .ag ++ [.psuMeasWrite name r.1])

/-- The psuctl application loop of `uart_handle_control_lines` (lines 161-164):
for every instrument whose name is in the resolved scope, re-apply the global
configuration's channels without toggling output state. -/
def psuctlApply (instrNames : List String) (loc cfgs : PsuConfigs) : AgM :=
  agFold (fun nm =>
    if (alookup nm loc).isSome then
      match alookup nm cfgs with
      | none => .error .keyError
      | some c => set_psu_channel_configs nm c.channels false
    else .ok []) instrNames

/-- One iteration of the `uart_handle_control_lines` loop (lines 144-174) on a
dequeued line: dispatch on the line prefix, parse, and perform the dutmeas /
psuctl / psumeas action; unmatched lines are logged and acknowledged.  Returns
the events performed, the resulting global configuration, and the uncaught
exception if the iteration raised. -/
def processOneLine (le : LitEval) (mo : MeasOracle) (tname : String)
    (instrNames : List String) (cfgs : PsuConfigs) (line : List Char) :
    List CtlEvent × PsuConfigs × Option PyExn :=
  if (stripPrefixChars (("@" ++ tname ++ ":dutmeas:").data) line).isSome then
    match dutmeasMatch tname line with
    | none => ([.errMalformedDutmeas line, .taskDone], cfgs, none)
    | some kv =>
      match literal_or_str le (String.mk kv.2) with
      | .error e => ([], cfgs, some e)
      | .ok v => ([.dutMeasWrite (String.mk kv.1) v, .taskDone], cfgs, none)
  else if (stripPrefixChars (("@" ++ tname ++ ":psuctl:").data) line).isSome then
    let p := parse_psuline "ctl" tname cfgs line
    if p.valid then
      match psuctlApply instrNames p.loc p.cfgs with
      | .error e => (p.events, p.cfgs, some e)
      | .ok evs => (p.events ++ evs.map .ag ++ [.taskDone], p.cfgs, none)
    else (p.events, p.cfgs, none)
  else if (stripPrefixChars (("@" ++ tname ++ ":psumeas:").data) line).isSome then
    let p := parse_psuline "meas" tname cfgs line
    if p.valid then
      match async_meas mo instrNames p.loc
          (some (String.mk ((p.groups.getD ⟨[], [], none, none⟩).g1))) with
      | .error e => (p.events, p.cfgs, some e)
      | .ok evs => (p.events ++ evs ++ [.taskDone], p.cfgs, none)
    else (p.events, p.cfgs, none)
  else ([.errMalformedLine line, .taskDone], cfgs, none)

/-- The processing loop of `uart_handle_control_lines` over the queued lines,
while the Termination Signal stays unset.  On an uncaught exception the
coroutine's `finally` block drains the remaining queue, logging each line as
dropped (lines 176-182). -/
def processLines (le : LitEval) (mo : MeasOracle) (tname : String)
    (instrNames : List String) : PsuConfigs → List (List Char) →
    List CtlEvent × PsuConfigs × Option PyExn
  | cfgs, [] => ([], cfgs, none)
  | cfgs, l :: rest =>
    let r := processOneLine le mo tname instrNames cfgs l
    match r.2.2 with
    | some e => (r.1 ++ rest.map .errDropped, r.2.1, some e)
    | none =>
      let r2 := processLines le mo tname instrNames r.2.1 rest
      (r.1 ++ r2.1, r2.2.1, r2.2.2)

/-! ## The orchestrator's instrument paths (dutctl.py) -/

/-- dutctl.py line 194: `psus_ganged = instr_cfg['supplies']` — the variable
later passed as the `ganged` flag is the supplies dict itself, not a
configured Boolean. -/
def psus_ganged (supplies : PsuConfigs) : PsuConfigs := supplies

/-- Python truthiness of a dict: nonempty. -/
def dictTruthy (d : PsuConfigs) : Bool := !d.isEmpty

/-- Python truthiness of a float: nonzero. -/
def floatTruthy (x : ℚ) : Bool := x != 0

/-- The `reset` action path (dutctl.py lines 200-202):
`aginstr.reconf_siggens(siggen_instrs, siggen_cfgs)` then
`aginstr.reset(psu_instrs, psu_cfgs, args.trst)`.  The reset call passes
`args.trst` as the third positional argument, which is `initial_low : bool`;
`t_rst` keeps its default 0.1. -/
def action_reset (sgInstrs : List String) (sgCfgs : SiggenConfigs)
    (instrs : List String) (cfgs : PsuConfigs) (trst : ℚ) : AgM :=
  agSeq (reconf_siggens sgInstrs sgCfgs true false)
    (reset instrs cfgs (floatTruthy trst) (mkRat 1 10))

/-- The `poweroff` action path (dutctl.py lines 203-205):
`aginstr.siggens_off(...)` then
`aginstr.power_off(psu_instrs, psu_cfgs, psus_ganged)` where `psus_ganged` is
the supplies dict (truthy whenever at least one supply is configured). -/
def action_poweroff (sgInstrs : List String) (sgCfgs : SiggenConfigs)
    (instrs : List String) (cfgs : PsuConfigs) : AgM :=
  agSeq (siggens_off sgInstrs sgCfgs)
    (power_off instrs cfgs (dictTruthy (psus_ganged cfgs)))

/-- The power-cycle call of the `cycle`/`run`/`leak` actions (dutctl.py line
209): `aginstr.power_reset_cycle(psu_instrs, psu_cfgs, psus_ganged, args.trst)`
with `psus_ganged` the supplies dict. -/
def cycle_power_call (instrs : List String) (cfgs : PsuConfigs) (trst : ℚ) : AgM :=
  power_reset_cycle instrs cfgs (dictTruthy (psus_ganged cfgs)) trst true

/-- The post-cycle reset call (dutctl.py lines 213-214):
`aginstr.reset(psu_instrs, psu_cfgs, args.trst)` — the same positional slip as
the `reset` action. -/
def cycle_reset_call (instrs : List String) (cfgs : PsuConfigs) (trst : ℚ) : AgM :=
  reset instrs cfgs (floatTruthy trst) (mkRat 1 10)

/-- The leak phase (dutctl.py lines 224-228): disable signal generators with
`aginstr.siggens_off` (all sources — the dedicated `siggens_leak_off` is not
the function called), wait `args.tlwait`, and take the `_leak` measurement. -/
def leak_phase (mo : MeasOracle) (sgInstrs : List String) (sgCfgs : SiggenConfigs)
    (instrs : List String) (cfgs : PsuConfigs) (tlwait : ℚ) : Except PyExn (List AgEvent) :=
  match siggens_off sgInstrs sgCfgs with
  | .error e => .error e
  | .ok t1 =>
    match meas_vol_cur mo instrs cfgs false with
    | .error e => .error e
    | .ok r => .ok (t1 ++ [.sleepFor tlwait] ++ r.2)

/-! ## Validity predicates and explicit traces

The aginstr procedures contain Python `assert`s and dict accesses; the
predicates below say a configuration passes them, and the `...Trace` functions
give the closed form of each procedure's trace under those conditions. -/

def exceptOk {ε α : Type} : Except ε α → Bool
  | .ok _ => true
  | .error _ => false

instance {ε α : Type} [DecidableEq ε] [DecidableEq α] : DecidableEq (Except ε α) := fun x y =>
  match x, y with
  | .ok a, .ok b => if h : a = b then isTrue (by rw [h]) else isFalse (by simp [h])
  | .error e, .error f => if h : e = f then isTrue (by rw [h]) else isFalse (by simp [h])
  | .ok _, .error _ => isFalse (by simp)
  | .error _, .ok _ => isFalse (by simp)

/-- Every channel's target voltage lies within its configured bounds. -/
def chansOk (l : List (Nat × PsuChannel)) : Prop :=
  ∀ pc ∈ l, pc.2.volmin ≤ pc.2.vol ∧ pc.2.vol ≤ pc.2.volmax

instance (l : List (Nat × PsuChannel)) : Decidable (chansOk l) :=
  decidable_of_iff (∀ pc ∈ l, pc.2.volmin ≤ pc.2.vol ∧ pc.2.vol ≤ pc.2.volmax) Iff.rfl

def opmodeOk (s : String) : Prop := s = "OFF" ∨ s = "PAR" ∨ s = "SER"

instance (s : String) : Decidable (opmodeOk s) :=
  decidable_of_iff (s = "OFF" ∨ s = "PAR" ∨ s = "SER") Iff.rfl

def cfgsOk (cfgs : PsuConfigs) : Prop :=
  ∀ nc ∈ cfgs, opmodeOk nc.2.opmode ∧ chansOk nc.2.channels

instance (cfgs : PsuConfigs) : Decidable (cfgsOk cfgs) :=
  decidable_of_iff (∀ nc ∈ cfgs, opmodeOk nc.2.opmode ∧ chansOk nc.2.channels) Iff.rfl

/-- Every configured supply has a connected instrument, as `connect_instrs`
guarantees (it builds the instrument dict from the config keys). -/
def keysSub (cfgs : PsuConfigs) (instrs : List String) : Prop :=
  ∀ nc ∈ cfgs, nc.1 ∈ instrs

instance (cfgs : PsuConfigs) (instrs : List String) : Decidable (keysSub cfgs instrs) :=
  decidable_of_iff (∀ nc ∈ cfgs, nc.1 ∈ instrs) Iff.rfl

def sgOffOk (sgInstrs : List String) (sgCfgs : SiggenConfigs) : Prop :=
  ∀ gc ∈ sgCfgs, gc.1 ∈ sgInstrs ∧ ∀ sc ∈ gc.2.sources, 0 < sc.1

instance (sgInstrs : List String) (sgCfgs : SiggenConfigs) :
    Decidable (sgOffOk sgInstrs sgCfgs) :=
  decidable_of_iff (∀ gc ∈ sgCfgs, gc.1 ∈ sgInstrs ∧ ∀ sc ∈ gc.2.sources, 0 < sc.1) Iff.rfl

/-- Closed form of `set_psu_channel_configs`'s trace. -/
def chanTrace (instr : String) (toggle : Bool) (l : List (Nat × PsuChannel)) : List AgEvent :=
  l.flatMap (fun pc =>
    [.setPchVolCur instr pc.2.vol pc.2.cur pc.1, .sleepFor (mkRat 1 20),
     .setPchFourwire instr pc.2.fourwire (effCh pc.1)] ++
    (if toggle then [.setPchActive instr pc.2.active (effCh pc.1)] else []))

/-- Closed form of `powerCycleSupply`'s trace. -/
def cycleSupplyTrace (rst_instr ganged : Bool) (nc : String × PsuConfig) : List AgEvent :=
  (if rst_instr then [.resetInstr nc.1] else []) ++ [.setPsuOpmode nc.1 nc.2.opmode] ++
    chanTrace nc.1 (!ganged) nc.2.channels

/-- Closed form of `reset`'s trace. -/
def resetTrace (cfgs : PsuConfigs) (initial_low : Bool) (t_rst : ℚ) : List AgEvent :=
  (cfgs.flatMap fun nc =>
    if initial_low = false ∧ nc.2.reset_gpio ≠ 0 then [.setPsuGpio nc.1 nc.2.reset_gpio true]
    else []) ++
  (cfgs.flatMap fun nc =>
    if nc.2.reset_gpio ≠ 0 then [.setPsuGpio nc.1 nc.2.reset_gpio false] else []) ++
  [.sleepFor t_rst] ++
  (cfgs.flatMap fun nc =>
    if nc.2.reset_gpio ≠ 0 then [.setPsuGpio nc.1 nc.2.reset_gpio true] else [])

/-- Closed form of `siggens_off`'s trace. -/
def siggensOffTrace (sgCfgs : SiggenConfigs) : List AgEvent :=
  sgCfgs.flatMap fun gc => gc.2.sources.flatMap fun sc => [.setSigsrcActive gc.1 false sc.1]

/-- The power-supply output-enable events (`set_pch_active(·, True)` calls). -/
def isPchEnable : AgEvent → Bool
  | .setPchActive _ true _ => true
  | _ => false

/-- Any power-supply output-state toggle (`set_pch_active` call). -/
def isPchActiveAny : AgEvent → Bool
  | .setPchActive _ _ _ => true
  | _ => false

/-! ## Concrete fixtures for the closed evaluations -/

/-- Literal-eval oracle recording the CPython outcomes for the payloads used in
the closed evaluations: `literal_eval('42') = 42`; `literal_eval('abc')`
raises `ValueError` (a bare name is a valid expression but not a literal);
`literal_eval('abc def')` raises `SyntaxError` (not parseable). -/
def pyLitEval0 : LitEval := fun s =>
  if s = "42" then .ok (.int 42)
  else if s = "abc def" then .syntaxError
  else .valueError

/-- Read-back oracle for closed evaluations (every read returns 0). -/
def measOracle0 : MeasOracle := fun _ _ _ => 0

def chanA : PsuChannel := { vol := 1, cur := 1, volmin := 0, volmax := mkRat 11 10 }
def chanB : PsuChannel := { vol := 2, cur := 1, volmin := 0, volmax := mkRat 22 10 }

def psuVdd : PsuConfig := { ip := "10.0.0.1", channels := [(1, chanA), (2, chanB)] }

/-- One supply `vdd` with channels 1 and 2. -/
def cfgsVdd : PsuConfigs := [("vdd", psuVdd)]

/-- Three supplies, as in the spec's gang-aware power-cycling scenario. -/
def cfgsTriple : PsuConfigs :=
  [("a", { ip := "10.0.0.3", channels := [(1, chanA)] }),
   ("b", { ip := "10.0.0.4", channels := [(1, chanA)] }),
   ("c", { ip := "10.0.0.5", channels := [(1, chanA)] })]

/-- One supply with a reset GPIO on pin 3 and no channels. -/
def cfgsRst : PsuConfigs := [("vdd", { ip := "10.0.0.1", channels := [], reset_gpio := 3 })]

/-- One generator with source 1 flagged leak-off (the default) and source 2
explicitly not flagged. -/
def sgLeak : SiggenConfigs :=
  [("sg", { ip := "10.0.0.2",
            sources := [(1, { freq := 1000, vhi := 1 }),
                        (2, { freq := 1000, vhi := 1, leakoff := false })] })]

def hasAgEvent (m : AgM) (e : AgEvent) : Bool :=
  match m with
  | .ok tr => tr.contains e
  | .error _ => false

def subRet (m : Except PyExn SubprocRes) : Option Int :=
  match m with
  | .ok r => some r.ret
  | .error _ => none

def hasTaskEv (m : Except PyExn SubprocRes) (e : TaskEv) : Bool :=
  match m with
  | .ok r => r.trace.contains e
  | .error _ => false

/-- The protocol lines used by the closed evaluations (`TOOL_NAME = 'dutctl'`). -/
def lineMissingFields : List Char := "@dutctl:psuctl:1.05".data
def lineBadVoltage : List Char := "@dutctl:psuctl:abc:0:vdd:1".data
def lineUnknownSupply : List Char := "@dutctl:psumeas:k:0:vcc".data
def lineUnknownChannel : List Char := "@dutctl:psumeas:k:0:vdd:7".data
def lineGoodDutmeas : List Char := "@dutctl:dutmeas:k2:42".data
def lineSyntaxErr : List Char := "@dutctl:dutmeas:k:abc def".data
def linePsumeasCh1 : List Char := "@dutctl:psumeas:k:0:vdd:1".data
def linePsumeasAll : List Char := "@dutctl:psumeas:q:5".data
def linePsuctlHigh : List Char := "@dutctl:psuctl:5:0:vdd:1".data
def linePsuctlGood : List Char := "@dutctl:psuctl:1.05:0:vdd:1".data

/-! ## Helper lemmas -/

@[simp] theorem agSeq_ok_ok (t1 t2 : List AgEvent) :
    agSeq (.ok t1) (.ok t2) = .ok (t1 ++ t2) := rfl

@[simp] theorem agSeq_error_left (e : PyExn) (b : AgM) :
    agSeq (.error e) b = .error e := rfl

@[simp] theorem agSeq_ok_error (t : List AgEvent) (e : PyExn) :
    agSeq (.ok t) (.error e) = .error e := rfl

theorem agSeq_ok {t1 t2 : List AgEvent} {a b : AgM} (ha : a = .ok t1) (hb : b = .ok t2) :
    agSeq a b = .ok (t1 ++ t2) := by
  rw [ha, hb]; rfl

theorem foldl_agSeq_error {α : Type} (f : α → AgM) (e : PyExn) :
    ∀ l : List α, l.foldl (fun acc x => agSeq acc (f x)) (.error e) = .error e
  | [] => rfl
  | _ :: xs => foldl_agSeq_error f e xs

theorem foldl_agSeq_ok {α : Type} (f : α → AgM) (g : α → List AgEvent) :
    ∀ (l : List α), (∀ x ∈ l, f x = .ok (g x)) → ∀ t0 : List AgEvent,
      l.foldl (fun acc x => agSeq acc (f x)) (.ok t0) = .ok (t0 ++ l.flatMap g)
  | [], _, t0 => by simp
  | x :: xs, h, t0 => by
    have hx : f x = .ok (g x) := h x (List.mem_cons_self x xs)
    have ih := foldl_agSeq_ok f g xs (fun y hy => h y (List.mem_cons_of_mem x hy)) (t0 ++ g x)
    simp only [List.foldl_cons, agSeq_ok rfl hx, ih, List.flatMap_cons, List.append_assoc]

/-- A loop whose every iteration succeeds with trace `g x` succeeds with the
concatenation of the per-iteration traces. -/
theorem agFold_eq {α : Type} (f : α → AgM) (g : α → List AgEvent) (l : List α)
    (h : ∀ x ∈ l, f x = .ok (g x)) : agFold f l = .ok (l.flatMap g) := by
  simpa using foldl_agSeq_ok f g l h []

theorem foldl_agSeq_exceptOk {α : Type} (f : α → AgM) :
    ∀ (l : List α) (t0 : List AgEvent),
      exceptOk (l.foldl (fun acc x => agSeq acc (f x)) (.ok t0))
        = l.all (fun x => exceptOk (f x))
  | [], _ => rfl
  | x :: xs, t0 => by
    simp only [List.foldl_cons, List.all_cons]
    cases hfx : f x with
    | error e =>
      have h : agSeq (Except.ok t0) (Except.error e) = (Except.error e : AgM) := rfl
      rw [h, foldl_agSeq_error]
      rfl
    | ok t =>
      have h : agSeq (Except.ok t0) (Except.ok t) = (Except.ok (t0 ++ t) : AgM) := rfl
      rw [h, foldl_agSeq_exceptOk f xs (t0 ++ t)]
      rfl

/-- A loop succeeds iff each of its iterations succeeds. -/
theorem agFold_exceptOk {α : Type} (f : α → AgM) (l : List α) :
    exceptOk (agFold f l) = l.all (fun x => exceptOk (f x)) :=
  foldl_agSeq_exceptOk f l []

theorem alookup_aupdate {α β : Type} [DecidableEq α] (k : α) (v : β) :
    ∀ l : List (α × β), (alookup k l).isSome → alookup k (aupdate k v l) = some v
  | [], h => by simp [alookup] at h
  | (k', v') :: rest, h => by
    by_cases hk : k' = k
    · simp [aupdate, alookup, hk]
    · simp only [aupdate, alookup, if_neg hk] at h ⊢
      exact alookup_aupdate k v rest h

theorem filter_flatMap_nil {α : Type} (p : AgEvent → Bool) (g : α → List AgEvent) :
    ∀ l : List α, (∀ x ∈ l, (g x).filter p = []) → (l.flatMap g).filter p = []
  | [], _ => rfl
  | x :: xs, h => by
    rw [List.flatMap_cons, List.filter_append, h x (List.mem_cons_self x xs),
      filter_flatMap_nil p g xs (fun y hy => h y (List.mem_cons_of_mem x hy))]
    rfl

/-- `set_psu_channel_configs` under in-bounds channels: its exact trace. -/
theorem set_psu_channel_configs_eq (instr : String) (toggle : Bool)
    (l : List (Nat × PsuChannel)) (h : chansOk l) :
    set_psu_channel_configs instr l toggle = .ok (chanTrace instr toggle l) := by
  apply agFold_eq
  intro pc hpc
  have hb := h pc hpc
  cases toggle with
  | false => simp [set_pch_vol_cur, set_pch_fourwire, set_pch_active, hb.1, hb.2]
  | true => simp [set_pch_vol_cur, set_pch_fourwire, set_pch_active, hb.1, hb.2]

/-- `reset` when every configured supply has an instrument: its exact trace. -/
theorem reset_eq (instrs : List String) (cfgs : PsuConfigs) (il : Bool) (t : ℚ)
    (h : keysSub cfgs instrs) :
    reset instrs cfgs il t = .ok (resetTrace cfgs il t) := by
  have hg : ∀ nc ∈ cfgs, ∀ val : Bool, nc.2.reset_gpio ≠ 0 →
      gpioCall instrs nc.1 nc.2.reset_gpio val = .ok [.setPsuGpio nc.1 nc.2.reset_gpio val] := by
    intro nc hnc val hpin
    simp [gpioCall, getInstr, h nc hnc, set_psu_gpio_state, Nat.pos_of_ne_zero hpin]
  have l1 : agFold (fun nc =>
      if il = false ∧ nc.2.reset_gpio ≠ 0 then gpioCall instrs nc.1 nc.2.reset_gpio true
      else .ok []) cfgs
      = .ok (cfgs.flatMap fun nc =>
        if il = false ∧ nc.2.reset_gpio ≠ 0 then [AgEvent.setPsuGpio nc.1 nc.2.reset_gpio true]
        else []) := by
    apply agFold_eq
    intro nc hnc
    by_cases hc : il = false ∧ nc.2.reset_gpio ≠ 0
    · rw [if_pos hc, if_pos hc, hg nc hnc true hc.2]
    · rw [if_neg hc, if_neg hc]
  have l2 : agFold (fun nc =>
      if nc.2.reset_gpio ≠ 0 then gpioCall instrs nc.1 nc.2.reset_gpio false
      else .ok []) cfgs
      = .ok (cfgs.flatMap fun nc =>
        if nc.2.reset_gpio ≠ 0 then [AgEvent.setPsuGpio nc.1 nc.2.reset_gpio false]
        else []) := by
    apply agFold_eq
    intro nc hnc
    by_cases hc : nc.2.reset_gpio ≠ 0
    · rw [if_pos hc, if_pos hc, hg nc hnc false hc]
    · rw [if_neg hc, if_neg hc]
  have l3 : agFold (fun nc =>
      if nc.2.reset_gpio ≠ 0 then gpioCall instrs nc.1 nc.2.reset_gpio true
      else .ok []) cfgs
      = .ok (cfgs.flatMap fun nc =>
        if nc.2.reset_gpio ≠ 0 then [AgEvent.setPsuGpio nc.1 nc.2.reset_gpio true]
        else []) := by
    apply agFold_eq
    intro nc hnc
    by_cases hc : nc.2.reset_gpio ≠ 0
    · rw [if_pos hc, if_pos hc, hg nc hnc true hc]
    · rw [if_neg hc, if_neg hc]
  rw [reset, agSeq_ok l1 (agSeq_ok l2 (agSeq_ok rfl l3)), resetTrace]
  simp [List.append_assoc]

/-- `power_off` with a truthy `ganged` argument: a single output disable on the
first instrument, regardless of how many supplies are configured. -/
theorem power_off_ganged (i0 : String) (rest : List String) (cfgs : PsuConfigs) :
    power_off (i0 :: rest) cfgs true = .ok [.setPchActive i0 false 1] := rfl

/-- `powerCycleSupply` under a valid config: its exact trace. -/
theorem powerCycleSupply_eq (instrs : List String) (ganged rst_instr : Bool)
    (nc : String × PsuConfig) (hk : nc.1 ∈ instrs) (hm : opmodeOk nc.2.opmode)
    (hc : chansOk nc.2.channels) :
    powerCycleSupply instrs ganged rst_instr nc = .ok (cycleSupplyTrace rst_instr ganged nc) := by
  have hm' : nc.2.opmode = "OFF" ∨ nc.2.opmode = "PAR" ∨ nc.2.opmode = "SER" := hm
  have h3 := set_psu_channel_configs_eq nc.1 (!ganged) nc.2.channels hc
  cases rst_instr with
  | false =>
    simp [powerCycleSupply, getInstr, hk, reset_instr, set_psu_opmode, hm', h3, cycleSupplyTrace]
  | true =>
    simp [powerCycleSupply, getInstr, hk, reset_instr, set_psu_opmode, hm', h3, cycleSupplyTrace]

/-- `power_reset_cycle` with a truthy `ganged` argument under a valid
configuration: its exact trace. -/
theorem power_reset_cycle_ganged (i0 : String) (rest : List String) (cfgs : PsuConfigs)
    (t : ℚ) (rst_instr : Bool) (hv : cfgsOk cfgs) (hk : keysSub cfgs (i0 :: rest)) :
    power_reset_cycle (i0 :: rest) cfgs true t rst_instr
      = .ok ([.setPchActive i0 false 1] ++ cfgs.flatMap (cycleSupplyTrace rst_instr true)
          ++ [.setPchActive i0 true 1] ++ resetTrace cfgs true t) := by
  have hfold : agFold (powerCycleSupply (i0 :: rest) true rst_instr) cfgs
      = .ok (cfgs.flatMap (cycleSupplyTrace rst_instr true)) := by
    apply agFold_eq
    intro nc hnc
    exact powerCycleSupply_eq (i0 :: rest) true rst_instr nc (hk nc hnc) (hv nc hnc).1 (hv nc hnc).2
  simp [power_reset_cycle, power_off_ganged, hfold, reset_eq (i0 :: rest) cfgs true t hk,
    set_pch_active, effCh]

/-- `siggens_off` under a valid generator setup: its exact trace. -/
theorem siggens_off_eq (sgInstrs : List String) (sgCfgs : SiggenConfigs)
    (h : sgOffOk sgInstrs sgCfgs) :
    siggens_off sgInstrs sgCfgs = .ok (siggensOffTrace sgCfgs) := by
  apply agFold_eq
  intro gc hgc
  apply agFold_eq
  intro sc hsc
  simp [getInstr, (h gc hgc).1, set_sigsrc_active, (h gc hgc).2 sc hsc]

/-! ## Claim C1 — termination propagation -/

theorem subprocLoop_no_event (extEvent : Nat → Bool) (sig : Option Int) (own stop : Int)
    (poll : ℚ) (hev : ∀ i, extEvent i = false) :
    ∀ (k i : Nat), subprocLoop extEvent sig own stop poll i k
      = (List.replicate k (.pollSleep poll), own, false)
  | 0, i => by simp [subprocLoop, hev i]
  | k + 1, i => by
    simp [subprocLoop, hev i,
      subprocLoop_no_event extEvent sig own stop poll hev k (i + 1), List.replicate_succ]

theorem countEvSet_append (a b : List TaskEv) :
    countEvSet (a ++ b) = countEvSet a + countEvSet b := by
  simp [countEvSet, List.filter_append]

theorem countEvSet_replicate_poll (k : Nat) (poll : ℚ) :
    countEvSet (List.replicate k (.pollSleep poll)) = 0 := by
  induction k with
  | zero => rfl
  | succ n ih =>
    rw [List.replicate_succ]
    simp only [countEvSet, List.filter_cons] at ih ⊢
    simp [isEvSet, ih]

/-- C1 (corrected).  A subprocess-supervisor task whose supervised process
exits on its own (the Termination Signal is never set during its run) asserts
the Termination Signal exactly once before returning; the serial line reader,
however, never asserts the Termination Signal on any input — `uart_handle_serial`
holds no reference to it — so a serial-link close or failure does not start
sibling shutdown. -/
theorem c1_propagation_amended :
    (∀ (extEvent : Nat → Bool) (argv : List String) (k : Nat) (ownCode stopCode : Int)
      (poll : ℚ) (sig : Option Int) (mask : Option Int),
      0 < poll → (∀ i, extEvent i = false) →
      ∃ r, async_subproc extEvent argv k ownCode stopCode poll sig mask = .ok r ∧
        countEvSet r.trace = 1)
    ∧ ∀ (tname : String) (input : List (List Char)),
        countEvSet (uartHandleSerial tname input).trace = 0 := by
  constructor
  · intro extEvent argv k ownCode stopCode poll sig mask hpoll hev
    refine ⟨_, by rw [async_subproc, if_pos hpoll], ?_⟩
    rw [subprocLoop_no_event extEvent sig ownCode stopCode poll hev k 0]
    simp only [List.cons_append, countEvSet, List.filter_cons, List.filter_append,
      countEvSet_append]
    have h0 : (List.replicate k (TaskEv.pollSleep poll)).filter isEvSet = [] := by
      have := countEvSet_replicate_poll k poll
      simpa [countEvSet, List.length_eq_zero] using this
    simp [isEvSet, h0]
  · intro tname input
    show countEvSet (input.flatMap _) = 0
    induction input with
    | nil => rfl
    | cons l rest ih =>
      rw [List.flatMap_cons, countEvSet_append, ih]
      by_cases hc : (stripPrefixChars ('@' :: tname.data) l).isSome <;>
        simp [hc, countEvSet, isEvSet]

theorem c1_propagation_witness :
    (∃ r, async_subproc (fun _ => false) ["openocd", "-f", "chip0.ocd"] 2 7 0 (mkRat 1 2)
        none none = .ok r ∧ countEvSet r.trace = 1)
    ∧ countEvSet (uartHandleSerial "dutctl" ["@dutctl:dutmeas:k:1".data]).trace = 0 :=
  ⟨c1_propagation_amended.1 (fun _ => false) ["openocd", "-f", "chip0.ocd"] 2 7 0 (mkRat 1 2)
      none none (by norm_num) (fun _ => rfl),
    c1_propagation_amended.2 "dutctl" ["@dutctl:dutmeas:k:1".data]⟩

/-- C1 counterexample.  The serial line reader completing because the serial
link fails (here: after delivering one protocol line) performs zero Termination
Signal assertions, not exactly one as the claim requires for every task ending
unprompted. -/
theorem c1_serial_counterexample :
    (uartHandleSerial "dutctl" ["@dutctl:dutmeas:k:1".data]).raised = true
    ∧ countEvSet (uartHandleSerial "dutctl" ["@dutctl:dutmeas:k:1".data]).trace = 0
    ∧ countEvSet (uartHandleSerial "dutctl" ["@dutctl:dutmeas:k:1".data]).trace ≠ 1 := by
  decide

/-! ## Claim C3 — stop signals and exit-code masking of GDB and OpenOCD -/

/-- C3 (corrected; the claim swaps the two instantiations).  The debug bridge
(OpenOCD, `handle_ocd`) is stopped with the default graceful terminate
(`sig=None`, so `p.terminate()`) and its exit code -15 is masked to 0 while
any other code passes through; the debugger (GDB, `handle_gdb`) is stopped
with the kill signal (SIGKILL = 9) and no exit code is masked. -/
theorem c3_stop_and_mask_amended (binary script : String) (ownCode stopCode : Int)
    (poll : ℚ) (h : 0 < poll) :
    (∃ r, handle_ocd (fun _ => true) binary script 1 ownCode stopCode poll = .ok r ∧
      TaskEv.sendSignal none ∈ r.trace ∧
      r.ret = if stopCode = -15 then 0 else stopCode)
    ∧ ∃ r, handle_gdb (fun _ => true) binary script 1 ownCode stopCode poll = .ok r ∧
      TaskEv.sendSignal (some 9) ∈ r.trace ∧ r.ret = stopCode := by
  constructor
  · refine ⟨_, by rw [handle_ocd, async_subproc, if_pos h], ?_, ?_⟩
    · simp [subprocLoop]
    · by_cases hs : stopCode = -15
      · simp [subprocLoop, hs]
      · have hs' : ¬((-15 : Int) = stopCode) := fun hx => hs hx.symm
        simp [subprocLoop, hs, hs']
  · refine ⟨_, by rw [handle_gdb, async_subproc, if_pos h], ?_, ?_⟩
    · simp [subprocLoop]
    · simp [subprocLoop]

theorem c3_stop_and_mask_witness :
    (∃ r, handle_ocd (fun _ => true) "openocd" "chip0.ocd" 1 0 (-15) (mkRat 1 2) = .ok r ∧
      TaskEv.sendSignal none ∈ r.trace ∧
      r.ret = if (-15 : Int) = -15 then 0 else (-15 : Int))
    ∧ ∃ r, handle_gdb (fun _ => true) "openocd" "chip0.ocd" 1 0 (-15) (mkRat 1 2) = .ok r ∧
      TaskEv.sendSignal (some 9) ∈ r.trace ∧ r.ret = (-15 : Int) :=
  c3_stop_and_mask_amended "openocd" "chip0.ocd" 0 (-15) (mkRat 1 2) (by norm_num)

/-- C3 counterexample.  A GDB supervisor asked to stop whose process exits with
-15 reports -15, not 0 (no masking is configured for GDB), and the signal it
sends is SIGKILL (9), not the default graceful terminate. -/
theorem c3_counterexample :
    subRet (handle_gdb (fun _ => true) "riscv64-unknown-elf-gdb" "run.gdb" 1 0 (-15) (mkRat 1 2))
        = some (-15)
    ∧ some (-15 : Int) ≠ some (0 : Int)
    ∧ hasTaskEv (handle_gdb (fun _ => true) "riscv64-unknown-elf-gdb" "run.gdb" 1 0 (-15) (mkRat 1 2))
        (.sendSignal (some 9)) = true
    ∧ hasTaskEv (handle_gdb (fun _ => true) "riscv64-unknown-elf-gdb" "run.gdb" 1 0 (-15) (mkRat 1 2))
        (.sendSignal none) = false := by
  decide

/-! ## Claim C2 — malformed control lines are discarded, but a control line can
abort the run -/

/-- C2.  The four enumerated malformed/unresolvable kinds (missing fields,
non-numeric psuctl voltage, unknown supply, unknown channel) are each logged,
acknowledged and discarded, and the valid line behind them is still processed
in order with the configuration unchanged.  However, the final part of the
claim — "no control line ever aborts the run" — fails: a well-formed dutmeas
line whose payload is not parseable Python syntax (`abc def`) raises an
uncaught SyntaxError out of `literal_or_str` (which catches only ValueError,
contrary to its own comment), so the processing loop aborts and the following
valid line is only drained as dropped. -/
theorem c2_malformed_policy_eval :
    (processLines pyLitEval0 measOracle0 "dutctl" ["vdd"] cfgsVdd
        [lineMissingFields, lineBadVoltage, lineUnknownSupply, lineUnknownChannel,
          lineGoodDutmeas]).1
      = [.errMalformedPsu "ctl" lineMissingFields, .taskDone,
         .errMalformedPsu "ctl" lineBadVoltage, .taskDone,
         .errUnknownSupply "vcc" "meas" lineUnknownSupply, .taskDone,
         .errUnknownChannel 7 "meas" lineUnknownChannel, .taskDone,
         .dutMeasWrite "k2" (.int 42), .taskDone]
    ∧ (processLines pyLitEval0 measOracle0 "dutctl" ["vdd"] cfgsVdd
        [lineMissingFields, lineBadVoltage, lineUnknownSupply, lineUnknownChannel,
          lineGoodDutmeas]).2.1 = cfgsVdd
    ∧ (processLines pyLitEval0 measOracle0 "dutctl" ["vdd"] cfgsVdd
        [lineMissingFields, lineBadVoltage, lineUnknownSupply, lineUnknownChannel,
          lineGoodDutmeas]).2.2 = none
    ∧ (processLines pyLitEval0 measOracle0 "dutctl" ["vdd"] cfgsVdd
        [lineSyntaxErr, lineGoodDutmeas]).2.2 = some .syntaxError
    ∧ (processLines pyLitEval0 measOracle0 "dutctl" ["vdd"] cfgsVdd
        [lineSyntaxErr, lineGoodDutmeas]).1 = [.errDropped lineGoodDutmeas] := by
  decide

/-! ## Claim C7 — dutmeas literal parsing -/

/-- C7.  `literal_or_str` falls back to the plain string for payloads on which
`literal_eval` raises ValueError (`abc`), but a payload on which `literal_eval`
raises SyntaxError (`abc def`) propagates the exception — only ValueError is
caught — so a dutmeas control line with such a payload makes the processor
raise, contradicting the claim that no dutmeas payload does. -/
theorem c7_literal_fallback_eval :
    literal_or_str pyLitEval0 "42" = .ok (.int 42)
    ∧ literal_or_str pyLitEval0 "abc" = .ok (.str "abc")
    ∧ literal_or_str pyLitEval0 "abc def" = .error .syntaxError
    ∧ (processOneLine pyLitEval0 measOracle0 "dutctl" ["vdd"] cfgsVdd lineSyntaxErr).2.2
        = some .syntaxError := by
  decide

/-! ## Claim C5 — scope resolution mutates the configuration -/

/-- C5.  Processing a psumeas line naming supply `vdd` and channel 1 succeeds,
but permanently replaces `vdd`'s channel dict `{1, 2}` with `{1}` in the global
configuration (the narrowing on dut.py line 117 assigns through the shared
`PsuConfig` object); a later line giving no supply then resolves to this
mutilated configuration, missing channel 2 — not to the full configuration. -/
theorem c5_scope_mutation_eval :
    (processOneLine pyLitEval0 measOracle0 "dutctl" ["vdd"] cfgsVdd linePsumeasCh1).2.2 = none
    ∧ cfgsVdd.map (fun p => (p.1, p.2.channels.map Prod.fst)) = [("vdd", [1, 2])]
    ∧ ((processOneLine pyLitEval0 measOracle0 "dutctl" ["vdd"] cfgsVdd linePsumeasCh1).2.1.map
        (fun p => (p.1, p.2.channels.map Prod.fst))) = [("vdd", [1])]
    ∧ (parse_psuline "meas" "dutctl"
        (processOneLine pyLitEval0 measOracle0 "dutctl" ["vdd"] cfgsVdd linePsumeasCh1).2.1
        linePsumeasAll).valid = true
    ∧ (parse_psuline "meas" "dutctl"
        (processOneLine pyLitEval0 measOracle0 "dutctl" ["vdd"] cfgsVdd linePsumeasCh1).2.1
        linePsumeasAll).loc
      = (processOneLine pyLitEval0 measOracle0 "dutctl" ["vdd"] cfgsVdd linePsumeasCh1).2.1 := by
  decide

/-! ## Claim C8 — the leak phase disables all sources, not only leak-flagged
ones -/

/-- C8.  Source 2 of the generator is not flagged leak-off, yet the leak phase
(which calls `siggens_off`, not `siggens_leak_off`) disables it before the
settle delay and leak measurement; `siggens_leak_off` — the behaviour the
claim describes — would disable only source 1. -/
theorem c8_leak_phase_eval :
    (alookup 2 ((alookup "sg" sgLeak).getD { ip := "" }).sources).map SiggenSource.leakoff
        = some false
    ∧ hasAgEvent (leak_phase measOracle0 ["sg"] sgLeak ["vdd"] cfgsVdd (mkRat 1 2))
        (.setSigsrcActive "sg" false 2) = true
    ∧ hasAgEvent (siggens_leak_off ["sg"] sgLeak) (.setSigsrcActive "sg" false 2) = false
    ∧ hasAgEvent (siggens_leak_off ["sg"] sgLeak) (.setSigsrcActive "sg" false 1) = true := by
  decide

/-! ## Claim C9 — the reset pulse -/

/-- C9.  The `reset` action path with `--trst 0.5` and one reset GPIO on pin 3:
because dutctl.py passes `args.trst` positionally into `reset`'s `initial_low`
parameter (truthy for 0.5), the pins are never first raised high and the low
hold time is the 0.1 default rather than the requested 0.5.  The last conjunct
shows what the claim describes — `reset` invoked with `initial_low=False` and
`t_rst=0.5` — which raises high first and holds 0.5. -/
theorem c9_reset_pulse_eval :
    action_reset [] [] ["vdd"] cfgsRst (mkRat 1 2)
      = .ok [AgEvent.setPsuGpio "vdd" 3 false, AgEvent.sleepFor (mkRat 1 10),
             AgEvent.setPsuGpio "vdd" 3 true]
    ∧ floatTruthy (mkRat 1 2) = true
    ∧ mkRat 1 10 ≠ mkRat 1 2
    ∧ reset ["vdd"] cfgsRst false (mkRat 1 2)
      = .ok [AgEvent.setPsuGpio "vdd" 3 true, AgEvent.setPsuGpio "vdd" 3 false,
             AgEvent.sleepFor (mkRat 1 2), AgEvent.setPsuGpio "vdd" 3 true] := by
  decide

/-! ## Claim C4 — voltage bounds and the psuctl path -/

theorem exceptOk_set_single (i : String) (c : Nat) (ch : PsuChannel) :
    exceptOk (set_psu_channel_configs i [(c, ch)] false)
      = decide (ch.volmin ≤ ch.vol ∧ ch.vol ≤ ch.volmax) := by
  by_cases hb : ch.volmin ≤ ch.vol ∧ ch.vol ≤ ch.volmax <;>
    simp [set_psu_channel_configs, agFold, set_pch_vol_cur, set_pch_fourwire, hb, exceptOk]

/-- C4 counterexample.  The psuctl line `@dutctl:psuctl:5:0:vdd:1` is a
well-formed protocol input (5 parses as a float), yet processing it trips the
`assert volmin <= vol <= volmax` in `set_pch_vol_cur` — the claim that the
bounds assertion can never fail at runtime due to protocol input is false. -/
theorem c4_bounds_counterexample :
    pyFloat? "5".data = some (mkRat 5 1)
    ∧ ¬ ((5 : ℚ) ≤ mkRat 11 10)
    ∧ (processOneLine pyLitEval0 measOracle0 "dutctl" ["vdd"] cfgsVdd linePsuctlHigh).2.2
        = some .assertionError := by
  decide

/-- C4 (corrected).  The bounds assertion guards every voltage application
(first conjunct: `set_pch_vol_cur` succeeds exactly when min ≤ vol ≤ max), and
a psuctl control line naming an existing supply and channel parses
successfully; the subsequent application of the (voltage-overwritten) channel
configuration succeeds if and only if the line's voltage lies within the
target channel's configured bounds — an out-of-bounds protocol voltage makes
the assertion fail at runtime, while in-bounds voltages never trip it. -/
theorem c4_voltage_bounds_amended (tname : String) (instrNames : List String)
    (cfgs : PsuConfigs) (line : List Char) (g1 g2 supC cixC : List Char) (v : ℚ)
    (pcfg : PsuConfig) (ch : PsuChannel)
    (hm : psuMatch tname "ctl" line = some ⟨g1, g2, some supC, some cixC⟩)
    (hv : pyFloat? g1 = some v)
    (hs : alookup (String.mk supC) cfgs = some pcfg)
    (hc : alookup (digitsToNat cixC) pcfg.channels = some ch)
    (hi : String.mk supC ∈ instrNames) :
    (∀ (i : String) (vol cur mn mx : ℚ) (chn : Nat),
      exceptOk (set_pch_vol_cur i vol cur mn mx chn) = true ↔ mn ≤ vol ∧ vol ≤ mx)
    ∧ (parse_psuline "ctl" tname cfgs line).valid = true
    ∧ (exceptOk (psuctlApply instrNames (parse_psuline "ctl" tname cfgs line).loc
          (parse_psuline "ctl" tname cfgs line).cfgs) = true
        ↔ ch.volmin ≤ v ∧ v ≤ ch.volmax) := by
  have hset : ∀ (i : String) (vol cur mn mx : ℚ) (chn : Nat),
      exceptOk (set_pch_vol_cur i vol cur mn mx chn) = true ↔ mn ≤ vol ∧ vol ≤ mx := by
    intro i vol cur mn mx chn
    by_cases hb : mn ≤ vol ∧ vol ≤ mx <;> simp [set_pch_vol_cur, hb, exceptOk]
  have hp : parse_psuline "ctl" tname cfgs line
      = ⟨true, some ⟨g1, g2, some supC, some cixC⟩,
          [(String.mk supC,
            { pcfg with channels := [(digitsToNat cixC, { ch with vol := v })] })],
          aupdate (String.mk supC)
            { pcfg with channels := [(digitsToNat cixC, { ch with vol := v })] } cfgs,
          [.sleepMs (digitsToNat g2 : ℚ)]⟩ := by
    unfold parse_psuline
    rw [hm]
    simp [hv, hs, hc]
  refine ⟨hset, by rw [hp], ?_⟩
  rw [hp]
  have hlook : alookup (String.mk supC)
      (aupdate (String.mk supC)
        { pcfg with channels := [(digitsToNat cixC, { ch with vol := v })] } cfgs)
      = some { pcfg with channels := [(digitsToNat cixC, { ch with vol := v })] } := by
    apply alookup_aupdate
    rw [hs]; rfl
  rw [psuctlApply, agFold_exceptOk, List.all_eq_true]
  constructor
  · intro hall
    have h1 := hall (String.mk supC) hi
    simp only [alookup, if_pos rfl, Option.isSome_some, if_true, hlook] at h1
    rw [exceptOk_set_single] at h1
    have h2 := of_decide_eq_true h1
    exact h2
  · intro hb nm hnm
    by_cases hnm' : String.mk supC = nm
    · subst hnm'
      simp only [alookup, if_pos rfl, Option.isSome_some, if_true, hlook]
      rw [exceptOk_set_single]
      exact decide_eq_true hb
    · simp [alookup, hnm', exceptOk]

theorem c4_voltage_bounds_witness :
    (∀ (i : String) (vol cur mn mx : ℚ) (chn : Nat),
      exceptOk (set_pch_vol_cur i vol cur mn mx chn) = true ↔ mn ≤ vol ∧ vol ≤ mx)
    ∧ (parse_psuline "ctl" "dutctl" cfgsVdd linePsuctlGood).valid = true
    ∧ (exceptOk (psuctlApply ["vdd"] (parse_psuline "ctl" "dutctl" cfgsVdd linePsuctlGood).loc
          (parse_psuline "ctl" "dutctl" cfgsVdd linePsuctlGood).cfgs) = true
        ↔ chanA.volmin ≤ mkRat 105 100 ∧ mkRat 105 100 ≤ chanA.volmax) :=
  c4_voltage_bounds_amended "dutctl" ["vdd"] cfgsVdd linePsuctlGood "1.05".data "0".data
    "vdd".data "1".data (mkRat 105 100) psuVdd chanA (by decide) (by decide) (by decide)
    (by decide) (by decide)

/-! ## Claims C6 and C10 — gang-aware power sequencing -/

theorem chanTrace_false_no_active (i : String) (l : List (Nat × PsuChannel)) :
    (chanTrace i false l).filter isPchActiveAny = [] := by
  apply filter_flatMap_nil
  intro pc hpc
  simp [isPchActiveAny]

theorem cycleSupplyTrace_no_active (rst_instr : Bool) (nc : String × PsuConfig) :
    (cycleSupplyTrace rst_instr true nc).filter isPchActiveAny = [] := by
  cases rst_instr <;>
    simp [cycleSupplyTrace, List.filter_append, chanTrace_false_no_active, isPchActiveAny]

theorem resetTrace_no_active (cfgs : PsuConfigs) (il : Bool) (t : ℚ) :
    (resetTrace cfgs il t).filter isPchActiveAny = [] := by
  rw [resetTrace]
  simp only [List.filter_append]
  rw [filter_flatMap_nil _ _ _ (fun nc _ => by
      by_cases hc : il = false ∧ nc.2.reset_gpio ≠ 0 <;> simp [hc, isPchActiveAny]),
    filter_flatMap_nil _ _ _ (fun nc _ => by
      by_cases hc : nc.2.reset_gpio ≠ 0 <;> simp [hc, isPchActiveAny]),
    filter_flatMap_nil _ _ _ (fun nc _ => by
      by_cases hc : nc.2.reset_gpio ≠ 0 <;> simp [hc, isPchActiveAny])]
  simp [isPchActiveAny]

theorem siggensOffTrace_no_active (sgCfgs : SiggenConfigs) :
    (siggensOffTrace sgCfgs).filter isPchActiveAny = [] := by
  apply filter_flatMap_nil
  intro gc _
  apply filter_flatMap_nil
  intro sc _
  simp [isPchActiveAny]

theorem filter_enable_nil_of_active_nil (tr : List AgEvent)
    (h : tr.filter isPchActiveAny = []) : tr.filter isPchEnable = [] := by
  rw [List.filter_eq_nil_iff] at h ⊢
  intro a ha hp
  apply h a ha
  cases a <;> simp_all [isPchEnable, isPchActiveAny]

/-- C6 (confirmed).  With `ganged=true`, `powerOff` followed by `powerCycle`
issues exactly one output-enable call, on the first supply (the full trace
contains exactly one `set_pch_active(…, True)`, targeting the head of the
instrument dict), the only output-state toggles in the whole sequence are the
two ganged disables and this one enable regardless of how many supplies are
configured, and the per-channel configuration application
(`set_psu_channel_configs` with `toggle_output_state=False`) performs no
output-state toggles at all. -/
theorem c6_gang_aware_cycle (i0 : String) (rest : List String) (cfgs : PsuConfigs)
    (trst : ℚ) (rst_instr : Bool) (hv : cfgsOk cfgs) (hk : keysSub cfgs (i0 :: rest)) :
    (∃ tr, agSeq (power_off (i0 :: rest) cfgs true)
        (power_reset_cycle (i0 :: rest) cfgs true trst rst_instr) = .ok tr
      ∧ tr.filter isPchEnable = [.setPchActive i0 true 1]
      ∧ tr.filter isPchActiveAny
          = [.setPchActive i0 false 1, .setPchActive i0 false 1, .setPchActive i0 true 1])
    ∧ ∀ (i : String) (l : List (Nat × PsuChannel)), chansOk l →
        ∃ t2, set_psu_channel_configs i l false = .ok t2 ∧ t2.filter isPchActiveAny = [] := by
  constructor
  · have hmain := power_reset_cycle_ganged i0 rest cfgs trst rst_instr hv hk
    have hflat : (cfgs.flatMap (cycleSupplyTrace rst_instr true)).filter isPchActiveAny = [] :=
      filter_flatMap_nil _ _ _ (fun nc _ => cycleSupplyTrace_no_active rst_instr nc)
    refine ⟨_, agSeq_ok (power_off_ganged i0 rest cfgs) hmain, ?_, ?_⟩
    · simp only [List.filter_append, List.filter_cons,
        filter_enable_nil_of_active_nil _ hflat,
        filter_enable_nil_of_active_nil _ (resetTrace_no_active cfgs true trst)]
      simp [isPchEnable]
    · simp only [List.filter_append, List.filter_cons, hflat,
        resetTrace_no_active cfgs true trst]
      simp [isPchActiveAny]
  · intro i l hl
    exact ⟨_, set_psu_channel_configs_eq i false l hl, chanTrace_false_no_active i l⟩

theorem c6_gang_aware_witness :
    (∃ tr, agSeq (power_off ["a", "b", "c"] cfgsTriple true)
        (power_reset_cycle ["a", "b", "c"] cfgsTriple true (mkRat 1 10) true) = .ok tr
      ∧ tr.filter isPchEnable = [.setPchActive "a" true 1]
      ∧ tr.filter isPchActiveAny
          = [.setPchActive "a" false 1, .setPchActive "a" false 1, .setPchActive "a" true 1])
    ∧ ∀ (i : String) (l : List (Nat × PsuChannel)), chansOk l →
        ∃ t2, set_psu_channel_configs i l false = .ok t2
          ∧ t2.filter isPchActiveAny = [] :=
  c6_gang_aware_cycle "a" ["b", "c"] cfgsTriple (mkRat 1 10) true (by decide) (by decide)

/-- C10 (confirmed).  `psus_ganged` is the supplies dict itself (dutctl.py line
194), which is truthy whenever at least one supply is configured, so the
orchestrator's power-off and power-cycle call sites always run in ganged mode:
one disable on the first supply for the `poweroff` action, and one enable on
the first supply for the cycle's `power_reset_cycle` call. -/
theorem c10_always_ganged (i0 : String) (rest : List String) (cfgs : PsuConfigs)
    (trst : ℚ) (sgInstrs : List String) (sgCfgs : SiggenConfigs)
    (h0 : cfgs ≠ []) (hv : cfgsOk cfgs) (hk : keysSub cfgs (i0 :: rest))
    (hsg : sgOffOk sgInstrs sgCfgs) :
    dictTruthy (psus_ganged cfgs) = true
    ∧ (∃ tr, action_poweroff sgInstrs sgCfgs (i0 :: rest) cfgs = .ok tr
        ∧ tr.filter isPchActiveAny = [.setPchActive i0 false 1])
    ∧ ∃ tr, cycle_power_call (i0 :: rest) cfgs trst = .ok tr
        ∧ tr.filter isPchEnable = [.setPchActive i0 true 1] := by
  have htruthy : dictTruthy (psus_ganged cfgs) = true := by
    cases cfgs with
    | nil => exact absurd rfl h0
    | cons _ _ => rfl
  have hoff : action_poweroff sgInstrs sgCfgs (i0 :: rest) cfgs
      = .ok (siggensOffTrace sgCfgs ++ [.setPchActive i0 false 1]) := by
    rw [action_poweroff, htruthy]
    exact agSeq_ok (siggens_off_eq sgInstrs sgCfgs hsg) (power_off_ganged i0 rest cfgs)
  have hcyc : cycle_power_call (i0 :: rest) cfgs trst
      = .ok ([.setPchActive i0 false 1] ++ cfgs.flatMap (cycleSupplyTrace true true)
          ++ [.setPchActive i0 true 1] ++ resetTrace cfgs true trst) := by
    rw [cycle_power_call, htruthy]
    exact power_reset_cycle_ganged i0 rest cfgs trst true hv hk
  have hflat : (cfgs.flatMap (cycleSupplyTrace true true)).filter isPchActiveAny = [] :=
    filter_flatMap_nil _ _ _ (fun nc _ => cycleSupplyTrace_no_active true nc)
  refine ⟨htruthy, ⟨_, hoff, ?_⟩, ⟨_, hcyc, ?_⟩⟩
  · simp only [List.filter_append, siggensOffTrace_no_active]
    simp [isPchActiveAny]
  · simp only [List.filter_append, List.filter_cons,
      filter_enable_nil_of_active_nil _ hflat,
      filter_enable_nil_of_active_nil _ (resetTrace_no_active cfgs true trst)]
    simp [isPchEnable]

theorem c10_always_ganged_witness :
    dictTruthy (psus_ganged cfgsTriple) = true
    ∧ (∃ tr, action_poweroff ["sg"] sgLeak ["a", "b", "c"] cfgsTriple = .ok tr
        ∧ tr.filter isPchActiveAny = [.setPchActive "a" false 1])
    ∧ ∃ tr, cycle_power_call ["a", "b", "c"] cfgsTriple (mkRat 1 10) = .ok tr
        ∧ tr.filter isPchEnable = [.setPchActive "a" true 1] :=
  c10_always_ganged "a" ["b", "c"] cfgsTriple (mkRat 1 10) ["sg"] sgLeak (by decide)
    (by decide) (by decide) (by decide)

end Dutctl
